import Mathlib

/-!
# Shallow embedding of the `simple-rtr` renewal engine

This file embeds the renewal engine of `src/index.ts` (the variant using the
asynchronous `lock()` store primitive, which is the one the specification
describes: it carries the exclusive-access critical sections and the
"time travel" consistency check).

Modelling choices, all taken from the source:
* JavaScript numbers that can be `Infinity` (the value of `exp` for a token
  without an expiry) are modelled by `JsNum`; all clock readings and
  configuration values are finite and modelled by `ℚ`.  `NaN` is outside the
  model.
* The decoded `exp` claim of a token is an `Option ℚ` (`none` = the claim is
  absent).  JavaScript truthiness of a `number | undefined` value is `false`
  exactly for `undefined` and `0` (`NaN` aside), which drives both `exp` and
  the `if (state.lockedAt)` branch of the loop.
* One iteration of `mainloop`'s `while` body is embedded as the pure function
  `iter`.  Its parameters supply everything the iteration consumes from the
  outside world: the snapshot obtained from `lock()`, the clock reading
  (`time.now()` is read several times in one iteration with no suspension
  between reads that matter, matching the spec's single `t = clock.now()`),
  the outcome of the awaited `refresh` call, and the second snapshot obtained
  by the re-acquisition (`lock()` after the wait, or the post-refresh
  `lock()`/`get()`).  The function returns how the iteration ends together
  with the ordered list of store/lock/network events it performs.
  The debug-only `log?.('Value after write:', await get())` read is omitted:
  it only happens when a logger is configured and has no effect on state.
* `forceRefresh` and the state written by `setPair` are embedded in the same
  style.  `forceRefresh`'s refresh outcome omits the `undefined` case: unlike
  the loop, the source has no guard for it there and none of the claims
  exercise it.
-/

namespace Rtr

/-- A JavaScript number that may be `Infinity` (finite values are `ℚ`). -/
inductive JsNum where
  | fin (q : ℚ)
  | inf
deriving DecidableEq, Repr

/-- Subtraction of a finite number, as in `exp(token) - time.now()`:
`Infinity - q = Infinity`. -/
def JsNum.sub : JsNum → ℚ → JsNum
  | .fin q, r => .fin (q - r)
  | .inf, _ => .inf

/-- Addition of a finite number, as in `renewIn + uniqueDelay`:
`Infinity + q = Infinity`. -/
def JsNum.addQ : JsNum → ℚ → JsNum
  | .fin q, r => .fin (q + r)
  | .inf, _ => .inf

/-- The comparison `x < 0`; false for `Infinity`. -/
def JsNum.lt0 : JsNum → Bool
  | .fin q => decide (q < 0)
  | .inf => false

/-- JavaScript truthiness of a `number | undefined` value: `undefined` and `0`
are falsy (`NaN` is outside the model). -/
def jsTruthy : Option ℚ → Bool
  | none => false
  | some q => decide (q ≠ 0)

/-- `TokenPair` from the source: an auth token and a refresh token. -/
structure TokenPair where
  auth : String
  refresh : String
deriving DecidableEq, Repr

/-- `State` from the source: the single persisted record. `lockedAt` is the
optional timestamp of an in-progress renewal attempt. -/
structure State where
  pair : TokenPair
  lockedAt : Option ℚ := none
deriving DecidableEq, Repr

/-- `newState?.lockedAt`: optional chaining through an optional state. -/
def optLockedAt (s : Option State) : Option ℚ :=
  s.bind State.lockedAt

/-- `exp` from the source:
`function exp(token) { if (!token.exp) return Infinity; return token.exp }`.
The argument is the decoded `exp` claim; the claim being absent or `0` is
falsy, so both yield `Infinity`. -/
def exp (e : Option ℚ) : JsNum :=
  match e with
  | none => .inf
  | some v => if v = 0 then .inf else .fin v

/-- Per-instance configuration visible to the loop: the two construction-time
numbers plus this instance's `uniqueDelay` jitter. -/
structure Cfg where
  renewOnTtl : ℚ
  lockExpiry : ℚ
  uniqueDelay : ℚ
deriving DecidableEq, Repr

/-- The observable events one pass of the engine performs, in order:
store-lock acquisition/release, a persisted write, the awaited network
refresh call, a plain `get()`, a timer wait, a wait for a change
notification. -/
inductive Ev where
  | lockAcq
  | lockRel
  | writeState (s : Option State)
  | refreshCall (tok : String)
  | getState
  | sleep (d : JsNum)
  | awaitChange
deriving DecidableEq, Repr

/-- `true` exactly on refresh-call events. -/
def Ev.isCall : Ev → Bool
  | .refreshCall _ => true
  | _ => false

/-- How one iteration of the loop body ends: fall through to the next
iteration, or throw one of the fatal errors that escape the loop. -/
inductive IterResult where
  | next
  | fatalTimeTravel
  | fatalUndefResult
  | fatalLockBroken
deriving DecidableEq, Repr

/-- What the awaited `refresh(state.pair.refresh)` call does in the loop. -/
inductive RefreshOutcome where
  | pair (p : TokenPair)
  | invalid
  | undef
  | throws
deriving DecidableEq, Repr

/-- The session-expiry guard of the loop:
`exp(refreshToken) - time.now() < 0` with `refreshToken = decodeToken(state.pair.refresh)`. -/
def sessionExpired (dec : String → Option ℚ) (now : ℚ) (s : State) : Bool :=
  ((exp (dec s.pair.refresh)).sub now).lt0

/-- The renewal guard of the loop: `renewIn < 0` where
`renewIn = exp(auth) - renewOnTtl - time.now()`. -/
def renewDue (cfg : Cfg) (dec : String → Option ℚ) (now : ℚ) (s : State) : Bool :=
  (((exp (dec s.pair.auth)).sub cfg.renewOnTtl).sub now).lt0

/-- The tail of a loop iteration after the locked-wait section: the
`renewIn < 0` refresh branch (lines 441-489 of the source) and the final
valid-token sleep.  `snap2` is the snapshot of the `lock()` re-acquired after
the refresh call returns a pair. -/
def renewPhase (cfg : Cfg) (dec : String → Option ℚ) (now : ℚ) (s : State)
    (result : RefreshOutcome) (snap2 : Option State) : IterResult × List Ev :=
  let renewIn := ((exp (dec s.pair.auth)).sub cfg.renewOnTtl).sub now
  if renewIn.lt0 then
    if jsTruthy s.lockedAt then
      (.next, [.lockAcq, .lockRel])
    else
      let stamp := now
      let pre := [Ev.lockAcq, Ev.writeState (some ⟨s.pair, some stamp⟩), Ev.lockRel,
        Ev.refreshCall s.pair.refresh]
      match result with
      | .undef => (.fatalUndefResult, pre)
      | .invalid => (.next, pre ++ [.lockAcq, .writeState none, .lockRel])
      | .pair p =>
        if optLockedAt snap2 = some stamp then
          (.next, pre ++ [.lockAcq, .writeState (some ⟨p, none⟩), .lockRel])
        else
          (.fatalLockBroken, pre ++ [.lockAcq, .writeState none, .lockRel])
      | .throws => (.next, pre)
  else
    (.next, [.lockAcq, .lockRel, .sleep (renewIn.addQ cfg.uniqueDelay)])

/-- One iteration of the `while (loop)` body of `mainloop` (lines 393-494 of
the source), given the `lock()` snapshot `state`, the clock reading `now`,
the outcome of the refresh call if one is made, and the second snapshot
`snap2` (used by the post-wait re-acquisition or the post-refresh one,
whichever the control path reaches). -/
def iter (cfg : Cfg) (dec : String → Option ℚ) (now : ℚ) (state : Option State)
    (result : RefreshOutcome) (snap2 : Option State) : IterResult × List Ev :=
  match state with
  | none => (.next, [.lockAcq, .lockRel, .awaitChange])
  | some s =>
    if sessionExpired dec now s then
      (.next, [.lockAcq, .writeState none, .lockRel])
    else
      match s.lockedAt with
      | some v =>
        if v = 0 then
          renewPhase cfg dec now s result snap2
        else if now < v then
          (.fatalTimeTravel, [.lockAcq, .writeState none, .lockRel])
        else
          let unlockIn := now - v + cfg.lockExpiry
          if 0 < unlockIn then
            let pre := [Ev.lockAcq, Ev.lockRel, Ev.sleep (.fin (unlockIn + cfg.uniqueDelay)),
              Ev.lockAcq]
            if optLockedAt snap2 = some v then
              (.next, pre ++ [.writeState (some ⟨s.pair, none⟩), .lockRel])
            else
              (.next, pre ++ [.lockRel])
          else
            renewPhase cfg dec now s result snap2
      | none => renewPhase cfg dec now s result snap2

/-- What the awaited `refresh` call does in `forceRefresh`.  The source has no
`undefined` guard on this path so that case is outside the model. -/
inductive FrRes where
  | pair (p : TokenPair)
  | invalid
  | throws
deriving DecidableEq, Repr

/-- How a `forceRefresh()` call ends. -/
inductive FrOutcome where
  | ok
  | errNoSession
  | errThrown
  | errLockBroken
deriving DecidableEq, Repr

/-- `forceRefresh` (lines 533-549 of the source): acquire the store lock,
fail if no state, stamp `lockedAt = time.now()`, persist it, await the
refresh call (still holding the lock), then handle the result; `snap` is what
`await get()` returns after a pair comes back. -/
def forceRefresh (now : ℚ) (state : Option State) (result : FrRes)
    (snap : Option State) : FrOutcome × List Ev :=
  match state with
  | none => (.errNoSession, [.lockAcq])
  | some s =>
    let stamp := now
    let pre := [Ev.lockAcq, Ev.writeState (some ⟨s.pair, some stamp⟩),
      Ev.refreshCall s.pair.refresh]
    match result with
    | .throws => (.errThrown, pre)
    | .invalid => (.ok, pre ++ [.writeState none, .lockRel])
    | .pair p =>
      if optLockedAt snap = some stamp then
        (.ok, pre ++ [.getState, .writeState (some ⟨p, none⟩), .lockRel])
      else
        (.errLockBroken, pre ++ [.getState])

/-- The state persisted by `setPair` (lines 525-532 of the source): the prior
state is never read; a given pair is stored as `{ pair }` with no `lockedAt`,
an absent pair stores absence. -/
def setPairState (_prior : Option State) (pair : Option TokenPair) : Option State :=
  match pair with
  | some p => some { pair := p, lockedAt := none }
  | none => none

/-- The action the `changed` handler installed by `createSession`
(lines 507-512 of the source) takes on a committed store change from `old` to
`fresh`: skip when both states are present with equal auth strings, dispose
when the fresh state is absent, otherwise set the inner variable to the fresh
auth string. -/
inductive SessionAction where
  | skip
  | dispose
  | setAuth (a : String)
deriving DecidableEq, Repr

/-- The `createSession` change handler itself. -/
def sessionHandler (fresh old : Option State) : SessionAction :=
  match fresh, old with
  | some f, some o =>
    if f.pair.auth = o.pair.auth then .skip else .setAuth f.pair.auth
  | none, _ => .dispose
  | some f, none => .setAuth f.pair.auth

/-- `true` when a release of the store lock occurs strictly before the first
refresh call of the event list (the call runs outside the critical section). -/
def releasedBeforeCall (evs : List Ev) : Bool :=
  (evs.takeWhile (fun e => !e.isCall)).contains Ev.lockRel

/-- Claim C8: for every prior persisted state, `setPair(pair)` persists exactly
`{pair}` with no `lockedAt` field — replacing any existing state and clearing
any lock — and `setPair(absent)` persists absent; in particular
`setPair(absent)` on an absent store leaves it absent. -/
theorem C8_setPair_replaces (prior : Option State) (p : TokenPair) :
    setPairState prior (some p) = some { pair := p, lockedAt := none } ∧
    setPairState prior none = none ∧
    setPairState none none = none :=
  ⟨rfl, rfl, rfl⟩

/-- Claim C9: on a committed state change where both the old and the new state
are present, the `createSession` handler skips (leaving the inner observable's
value, which tracks the old auth string, unchanged) exactly when the two auth
strings are equal; when they differ it sets the inner observable to the new
auth string, which differs from the tracked old value, so the observable fires
only when the auth string actually changes. -/
theorem C9_session_fires_only_on_auth_change (f o : State) :
    (sessionHandler (some f) (some o) = .skip ↔ f.pair.auth = o.pair.auth) ∧
    (f.pair.auth ≠ o.pair.auth →
      sessionHandler (some f) (some o) = .setAuth f.pair.auth ∧
      f.pair.auth ≠ o.pair.auth) := by
  constructor
  · simp only [sessionHandler]
    split <;> simp_all
  · intro h
    simp only [sessionHandler, if_neg h]
    exact ⟨trivial, h⟩

/-- Witness for C9 at concrete states. -/
theorem C9_witness :
    sessionHandler (some ⟨⟨"b", "r"⟩, none⟩) (some ⟨⟨"a", "r"⟩, some 3⟩) =
      .setAuth "b" :=
  ((C9_session_fires_only_on_auth_change ⟨⟨"b", "r"⟩, none⟩ ⟨⟨"a", "r"⟩, some 3⟩).2
    (by decide)).1

/-- Claim C10: a decoded token whose `exp` claim is `0` (or absent — the falsy
values of a `number | undefined` field) is given the expiry `Infinity`, so it
never makes the loop's session-expiry guard true and never makes the renewal
guard true on its own. -/
theorem C10_falsy_exp_is_infinite (e : Option ℚ) (h : e = none ∨ e = some 0) :
    exp e = .inf ∧
    (∀ dec now s, dec s.pair.refresh = e → sessionExpired dec now s = false) ∧
    (∀ cfg dec now s, dec s.pair.auth = e → renewDue cfg dec now s = false) := by
  rcases h with rfl | rfl <;>
    refine ⟨by simp [exp], ?_, ?_⟩ <;>
      intros <;>
        simp_all [sessionExpired, renewDue, exp, JsNum.sub, JsNum.lt0]

/-- Witness for C10 at `exp = 0` with a concrete decoder and state. -/
theorem C10_witness :
    exp (some 0) = .inf ∧
    sessionExpired (fun _ => some 0) 5 ⟨⟨"a", "r"⟩, none⟩ = false ∧
    renewDue ⟨60, 10, 0⟩ (fun _ => some 0) 5 ⟨⟨"a", "r"⟩, none⟩ = false :=
  ⟨(C10_falsy_exp_is_infinite (some 0) (Or.inr rfl)).1,
   (C10_falsy_exp_is_infinite (some 0) (Or.inr rfl)).2.1 _ 5 ⟨⟨"a", "r"⟩, none⟩ rfl,
   (C10_falsy_exp_is_infinite (some 0) (Or.inr rfl)).2.2 ⟨60, 10, 0⟩ _ 5 ⟨⟨"a", "r"⟩, none⟩ rfl⟩

/-- Claim C5: on a loop iteration with state present, if the session-expiry
guard holds (`exp(refresh) - now < 0`) the iteration writes the state absent
and continues, performing no network call; and a refresh token with no
embedded expiry never makes that guard true. -/
theorem C5_expired_session_cleared (cfg : Cfg) (dec : String → Option ℚ)
    (now : ℚ) (s : State) (result : RefreshOutcome) (snap2 : Option State) :
    (sessionExpired dec now s = true →
      iter cfg dec now (some s) result snap2 =
        (.next, [Ev.lockAcq, Ev.writeState none, Ev.lockRel]) ∧
      ∀ tok, Ev.refreshCall tok ∉ (iter cfg dec now (some s) result snap2).2) ∧
    (dec s.pair.refresh = none → sessionExpired dec now s = false) := by
  constructor
  · intro h
    have hiter : iter cfg dec now (some s) result snap2 =
        (.next, [Ev.lockAcq, Ev.writeState none, Ev.lockRel]) := by
      simp [iter, h]
    exact ⟨hiter, by intro tok; rw [hiter]; simp⟩
  · intro h
    simp [sessionExpired, h, exp, JsNum.sub, JsNum.lt0]

/-- Witness for C5: an expired refresh token clears the state with no refresh
call; a token without expiry does not trigger the guard. -/
theorem C5_witness :
    iter ⟨60, 10, 0⟩ (fun _ => some 1) 5 (some ⟨⟨"a", "r"⟩, none⟩) .throws none =
      (.next, [Ev.lockAcq, Ev.writeState none, Ev.lockRel]) ∧
    sessionExpired (fun _ => (none : Option ℚ)) 5 ⟨⟨"a", "r"⟩, none⟩ = false :=
  ⟨((C5_expired_session_cleared ⟨60, 10, 0⟩ (fun _ => some 1) 5 ⟨⟨"a", "r"⟩, none⟩
      .throws none).1
      (by norm_num [sessionExpired, exp, JsNum.sub, JsNum.lt0])).1,
   (C5_expired_session_cleared ⟨60, 10, 0⟩ (fun _ => none) 5 ⟨⟨"a", "r"⟩, none⟩
      .throws none).2 rfl⟩

/-- Claim C6: in the valid-unlocked-token case (state present, no `lockedAt`,
session not expired, access token still fresh) the iteration releases the lock
and sleeps for exactly `(authExpiry - renewOnTtl - t) + uniqueDelay`, where
`authExpiry` is the expiry the engine assigns to the access token. -/
theorem C6_fresh_token_sleep (cfg : Cfg) (dec : String → Option ℚ) (now : ℚ)
    (s : State) (result : RefreshOutcome) (snap2 : Option State)
    (hlock : s.lockedAt = none) (hexp : sessionExpired dec now s = false)
    (hrenew : renewDue cfg dec now s = false) :
    iter cfg dec now (some s) result snap2 =
      (.next, [Ev.lockAcq, Ev.lockRel,
        Ev.sleep ((((exp (dec s.pair.auth)).sub cfg.renewOnTtl).sub now).addQ
          cfg.uniqueDelay)]) := by
  simp only [renewDue] at hrenew
  simp [iter, renewPhase, hexp, hlock, hrenew]

/-- Witness for C6: with `renewOnTtl = 60`, `uniqueDelay = 1/2`, an access
token expiring at `1000` and `t = 5`, the loop sleeps `935 + 1/2`. -/
theorem C6_witness :
    iter ⟨60, 10, 1/2⟩ (fun t => if t = "a" then some 1000 else none) 5
        (some ⟨⟨"a", "r"⟩, none⟩) .throws none =
      (.next, [Ev.lockAcq, Ev.lockRel, Ev.sleep (.fin (935 + 1/2))]) := by
  have h := C6_fresh_token_sleep ⟨60, 10, 1/2⟩
    (fun t => if t = "a" then some 1000 else none) 5 ⟨⟨"a", "r"⟩, none⟩
    .throws none rfl (by rfl)
    (by norm_num [renewDue, exp, JsNum.sub, JsNum.lt0, String.reduceEq])
  rw [h]
  norm_num [exp, JsNum.sub, JsNum.addQ, String.reduceEq]

/-- Claim C7 fails as stated, at two inputs.  First: a state whose `lockedAt`
field is set to `0` with `now = -1 < 0 = lockedAt`: the source guards the
whole lock section with JavaScript truthiness (`if (state.lockedAt)`), so a
`0` stamp skips the time-travel check and the loop just sleeps — nothing is
written absent and no error is raised.  Second: a nonzero future stamp
(`now = 3 < 5 = lockedAt`) on a state whose refresh token is already expired:
the expiry guard runs first, so the loop writes absent and *continues*
instead of terminating with the unrecoverable error. -/
theorem C7_counterexample :
    ((-1 : ℚ) < 0 ∧
      iter ⟨60, 10, 0⟩ (fun _ => none) (-1) (some ⟨⟨"a", "r"⟩, some 0⟩) .throws none =
        (.next, [Ev.lockAcq, Ev.lockRel, Ev.sleep .inf]) ∧
      (iter ⟨60, 10, 0⟩ (fun _ => none) (-1) (some ⟨⟨"a", "r"⟩, some 0⟩) .throws none).1 ≠
        .fatalTimeTravel ∧
      Ev.writeState none ∉
        (iter ⟨60, 10, 0⟩ (fun _ => none) (-1) (some ⟨⟨"a", "r"⟩, some 0⟩) .throws none).2) ∧
    ((3 : ℚ) < 5 ∧
      iter ⟨60, 10, 0⟩ (fun _ => some 1) 3 (some ⟨⟨"a", "r"⟩, some 5⟩) .throws none =
        (.next, [Ev.lockAcq, Ev.writeState none, Ev.lockRel]) ∧
      (iter ⟨60, 10, 0⟩ (fun _ => some 1) 3 (some ⟨⟨"a", "r"⟩, some 5⟩) .throws none).1 ≠
        .fatalTimeTravel) := by
  have h1 : iter ⟨60, 10, 0⟩ (fun _ => none) (-1) (some ⟨⟨"a", "r"⟩, some 0⟩) .throws none =
      (.next, [Ev.lockAcq, Ev.lockRel, Ev.sleep .inf]) := by
    norm_num [iter, renewPhase, sessionExpired, exp, JsNum.sub, JsNum.lt0, JsNum.addQ, jsTruthy]
  have h2 : iter ⟨60, 10, 0⟩ (fun _ => some 1) 3 (some ⟨⟨"a", "r"⟩, some 5⟩) .throws none =
      (.next, [Ev.lockAcq, Ev.writeState none, Ev.lockRel]) := by
    norm_num [iter, sessionExpired, exp, JsNum.sub, JsNum.lt0]
  refine ⟨⟨by norm_num, h1, ?_, ?_⟩, ⟨by norm_num, h2, ?_⟩⟩ <;> simp [h1, h2]

/-- Claim C7, amended: whenever the loop observes a present state with
`lockedAt` set to a *nonzero* timestamp, `now() < lockedAt`, and the refresh
token not already expired (the expiry guard runs first), it writes the state
absent and terminates the instance with the unrecoverable time-travel error,
performing no wait, no refresh call and no sleep. -/
theorem C7_time_travel_terminates (cfg : Cfg) (dec : String → Option ℚ)
    (now : ℚ) (s : State) (v : ℚ) (result : RefreshOutcome) (snap2 : Option State)
    (hv : s.lockedAt = some v) (hv0 : v ≠ 0) (hnow : now < v)
    (hexp : sessionExpired dec now s = false) :
    iter cfg dec now (some s) result snap2 =
      (.fatalTimeTravel, [Ev.lockAcq, Ev.writeState none, Ev.lockRel]) ∧
    (∀ d, Ev.sleep d ∉ (iter cfg dec now (some s) result snap2).2) ∧
    (∀ tok, Ev.refreshCall tok ∉ (iter cfg dec now (some s) result snap2).2) := by
  have hiter : iter cfg dec now (some s) result snap2 =
      (.fatalTimeTravel, [Ev.lockAcq, Ev.writeState none, Ev.lockRel]) := by
    simp [iter, hexp, hv, hv0, hnow]
  exact ⟨hiter, by simp [hiter], by simp [hiter]⟩

/-- Witness for the amended C7: a nonzero stamp `5` observed at `now = 3`
makes the iteration terminate with the time-travel error. -/
theorem C7_witness :
    iter ⟨60, 10, 0⟩ (fun _ => none) 3 (some ⟨⟨"a", "r"⟩, some 5⟩) .throws none =
      (.fatalTimeTravel, [Ev.lockAcq, Ev.writeState none, Ev.lockRel]) :=
  (C7_time_travel_terminates ⟨60, 10, 0⟩ (fun _ => none) 3 ⟨⟨"a", "r"⟩, some 5⟩ 5
    .throws none rfl (by norm_num) (by norm_num) rfl).1

/-- Claim C4 fails as stated: an instance that observes a stale lock late
does not reclaim within `lockExpiry + uniqueDelay + ε` of the lock timestamp.
Here the lock was stamped at `1`, `lockExpiry = 10`, `uniqueDelay = 0`, and
the loop observes it at `t = 100`: it sleeps `t - lockedAt + lockExpiry = 109`
seconds, waking (and only then reclaiming) at `209`, which is `198` seconds
after `lockedAt + lockExpiry + uniqueDelay = 11` — beyond even a generous
slop of `ε = 50`, and growing without bound in `t`. -/
theorem C4_counterexample :
    iter ⟨60, 10, 0⟩ (fun _ => none) 100 (some ⟨⟨"a", "r"⟩, some 1⟩) .throws
        (some ⟨⟨"a", "r"⟩, some 1⟩) =
      (.next, [Ev.lockAcq, Ev.lockRel, Ev.sleep (.fin 109), Ev.lockAcq,
        Ev.writeState (some ⟨⟨"a", "r"⟩, none⟩), Ev.lockRel]) ∧
    ¬((100 : ℚ) + 109 ≤ 1 + 10 + 0 + 50) := by
  constructor
  · norm_num [iter, sessionExpired, exp, JsNum.sub, JsNum.lt0, optLockedAt]
  · norm_num

/-- Claim C4, amended: an instance whose loop observes a live lock stamped at
`v` at time `now ≥ v` (nonzero stamp, positive `lockExpiry`, session not
expired) releases and sleeps exactly `(now - v + lockExpiry) + uniqueDelay`
seconds, so it wakes to reclaim at
`v + lockExpiry + uniqueDelay + 2*(now - v)`: never before the full
`lockExpiry + uniqueDelay` window has elapsed since the stamp, but within
`lockExpiry + uniqueDelay + ε` of the stamp only when it observed the lock
within `ε/2` of it. -/
theorem C4_reclaim_wake_time (cfg : Cfg) (dec : String → Option ℚ)
    (now : ℚ) (s : State) (v : ℚ) (result : RefreshOutcome) (snap2 : Option State)
    (hv : s.lockedAt = some v) (hv0 : v ≠ 0) (hle : v ≤ now)
    (hpos : 0 < cfg.lockExpiry) (hexp : sessionExpired dec now s = false) :
    ∃ tail,
      (iter cfg dec now (some s) result snap2).2 =
        [Ev.lockAcq, Ev.lockRel,
          Ev.sleep (.fin ((now - v + cfg.lockExpiry) + cfg.uniqueDelay)),
          Ev.lockAcq] ++ tail ∧
      (iter cfg dec now (some s) result snap2).1 = .next ∧
      now + ((now - v + cfg.lockExpiry) + cfg.uniqueDelay) =
        v + cfg.lockExpiry + cfg.uniqueDelay + 2 * (now - v) ∧
      v + cfg.lockExpiry + cfg.uniqueDelay ≤
        now + ((now - v + cfg.lockExpiry) + cfg.uniqueDelay) := by
  have hnlt : ¬now < v := not_lt.mpr hle
  have hu : 0 < now - v + cfg.lockExpiry := by linarith
  by_cases hsnap : optLockedAt snap2 = some v
  · exact ⟨[Ev.writeState (some ⟨s.pair, none⟩), Ev.lockRel],
      by simp [iter, hexp, hv, hv0, hnlt, hu, hsnap],
      by simp [iter, hexp, hv, hv0, hnlt, hu, hsnap], by ring, by linarith⟩
  · exact ⟨[Ev.lockRel],
      by simp [iter, hexp, hv, hv0, hnlt, hu, hsnap],
      by simp [iter, hexp, hv, hv0, hnlt, hu, hsnap], by ring, by linarith⟩

/-- Witness for the amended C4 at the counterexample's numbers: the sleep is
`(100 - 1 + 10) + 0 = 109` and the wake time `209` is `11 + 2*99`. -/
theorem C4_witness :
    ∃ tail,
      (iter ⟨60, 10, 0⟩ (fun _ => none) 100 (some ⟨⟨"a", "r"⟩, some 1⟩) .throws none).2 =
        [Ev.lockAcq, Ev.lockRel, Ev.sleep (.fin ((100 - 1 + 10) + 0)), Ev.lockAcq] ++ tail ∧
      (iter ⟨60, 10, 0⟩ (fun _ => none) 100 (some ⟨⟨"a", "r"⟩, some 1⟩) .throws none).1 =
        .next ∧
      (100 : ℚ) + ((100 - 1 + 10) + 0) = 1 + 10 + 0 + 2 * (100 - 1) ∧
      (1 : ℚ) + 10 + 0 ≤ 100 + ((100 - 1 + 10) + 0) :=
  C4_reclaim_wake_time ⟨60, 10, 0⟩ (fun _ => none) 100 ⟨⟨"a", "r"⟩, some 1⟩ 1
    .throws none rfl (by norm_num) (by norm_num) (by norm_num) rfl

/-- In the loop's refresh phase, any refresh call is preceded by a release of
the store lock. -/
theorem releasedBeforeCall_renewPhase (cfg : Cfg) (dec : String → Option ℚ)
    (now : ℚ) (s : State) (result : RefreshOutcome) (snap2 : Option State)
    (tok : String)
    (h : Ev.refreshCall tok ∈ (renewPhase cfg dec now s result snap2).2) :
    releasedBeforeCall (renewPhase cfg dec now s result snap2).2 = true := by
  by_cases hdue : (((exp (dec s.pair.auth)).sub cfg.renewOnTtl).sub now).lt0
  · by_cases hl : jsTruthy s.lockedAt
    · simp [renewPhase, hdue, hl] at h
    · cases result with
      | pair p =>
        by_cases hsnap : optLockedAt snap2 = some now <;>
          simp [renewPhase, hdue, hl, hsnap, releasedBeforeCall, Ev.isCall, List.takeWhile]
      | invalid =>
        simp [renewPhase, hdue, hl, releasedBeforeCall, Ev.isCall, List.takeWhile]
      | undef =>
        simp [renewPhase, hdue, hl, releasedBeforeCall, Ev.isCall, List.takeWhile]
      | throws =>
        simp [renewPhase, hdue, hl, releasedBeforeCall, Ev.isCall, List.takeWhile]
  · simp [renewPhase, hdue] at h

/-- Claim C2 fails as stated for `forceRefresh`: at this concrete input the
refresh call is issued while the store lock acquired at entry is still held —
no release event precedes the call. -/
theorem C2_counterexample :
    releasedBeforeCall (forceRefresh 5 (some ⟨⟨"a", "r"⟩, none⟩)
        (.pair ⟨"a2", "r2"⟩) (some ⟨⟨"a", "r"⟩, some 5⟩)).2 = false ∧
    Ev.refreshCall "r" ∈ (forceRefresh 5 (some ⟨⟨"a", "r"⟩, none⟩)
        (.pair ⟨"a2", "r2"⟩) (some ⟨⟨"a", "r"⟩, some 5⟩)).2 := by
  refine ⟨?_, ?_⟩
  · simp [forceRefresh, optLockedAt, releasedBeforeCall, Ev.isCall, List.takeWhile]
  · simp [forceRefresh, optLockedAt]

/-- Claim C2, amended: in the background loop every refresh call is made after
the critical section is released, but `forceRefresh` awaits its refresh call
while still holding the store lock (the lock is released only after the result
is handled, or never on the error paths). -/
theorem C2_loop_releases_forceRefresh_holds :
    (∀ cfg dec now state result snap2 tok,
        Ev.refreshCall tok ∈ (iter cfg dec now state result snap2).2 →
        releasedBeforeCall (iter cfg dec now state result snap2).2 = true) ∧
    (∀ now state result snap tok,
        Ev.refreshCall tok ∈ (forceRefresh now state result snap).2 →
        releasedBeforeCall (forceRefresh now state result snap).2 = false) := by
  constructor
  · intro cfg dec now state result snap2 tok h
    rcases state with _ | s
    · simp [iter] at h
    · by_cases hexp : sessionExpired dec now s
      · simp [iter, hexp] at h
      · rcases hl : s.lockedAt with _ | v
        · have hi : iter cfg dec now (some s) result snap2 =
              renewPhase cfg dec now s result snap2 := by
            simp [iter, hexp, hl]
          rw [hi] at h ⊢
          exact releasedBeforeCall_renewPhase cfg dec now s result snap2 tok h
        · by_cases hv0 : v = 0
          · have hi : iter cfg dec now (some s) result snap2 =
                renewPhase cfg dec now s result snap2 := by
              simp [iter, hexp, hl, hv0]
            rw [hi] at h ⊢
            exact releasedBeforeCall_renewPhase cfg dec now s result snap2 tok h
          · by_cases hnow : now < v
            · have hi : iter cfg dec now (some s) result snap2 =
                  (.fatalTimeTravel, [Ev.lockAcq, Ev.writeState none, Ev.lockRel]) := by
                simp [iter, hexp, hl, hv0, hnow]
              rw [hi] at h
              simp at h
            · by_cases hu : 0 < now - v + cfg.lockExpiry
              · by_cases hsnap : optLockedAt snap2 = some v
                · have hi : (iter cfg dec now (some s) result snap2).2 =
                      [Ev.lockAcq, Ev.lockRel,
                        Ev.sleep (.fin (now - v + cfg.lockExpiry + cfg.uniqueDelay)),
                        Ev.lockAcq, Ev.writeState (some ⟨s.pair, none⟩), Ev.lockRel] := by
                    simp [iter, hexp, hl, hv0, hnow, hu, hsnap]
                  rw [hi] at h
                  simp at h
                · have hi : (iter cfg dec now (some s) result snap2).2 =
                      [Ev.lockAcq, Ev.lockRel,
                        Ev.sleep (.fin (now - v + cfg.lockExpiry + cfg.uniqueDelay)),
                        Ev.lockAcq, Ev.lockRel] := by
                    simp [iter, hexp, hl, hv0, hnow, hu, hsnap]
                  rw [hi] at h
                  simp at h
              · have hi : iter cfg dec now (some s) result snap2 =
                    renewPhase cfg dec now s result snap2 := by
                  simp [iter, hexp, hl, hv0, hnow, hu]
                rw [hi] at h ⊢
                exact releasedBeforeCall_renewPhase cfg dec now s result snap2 tok h
  · intro now state result snap tok h
    rcases state with _ | s
    · simp [forceRefresh] at h
    · cases result with
      | pair p =>
        by_cases hsnap : optLockedAt snap = some now <;>
          simp [forceRefresh, hsnap, releasedBeforeCall, Ev.isCall, List.takeWhile]
      | invalid =>
        simp [forceRefresh, releasedBeforeCall, Ev.isCall, List.takeWhile]
      | throws =>
        simp [forceRefresh, releasedBeforeCall, Ev.isCall, List.takeWhile]

/-- Witness for the amended C2: a concrete loop refresh call with the release
before it, and a concrete `forceRefresh` call with none before it. -/
theorem C2_witness :
    releasedBeforeCall (iter ⟨60, 10, 0⟩ (fun t => if t = "a" then some 1 else none)
        100 (some ⟨⟨"a", "r"⟩, none⟩) .throws none).2 = true ∧
    releasedBeforeCall (forceRefresh 5 (some ⟨⟨"a", "r"⟩, none⟩) .invalid none).2 =
      false := by
  constructor
  · apply C2_loop_releases_forceRefresh_holds.1 ⟨60, 10, 0⟩
      (fun t => if t = "a" then some 1 else none) 100 (some ⟨⟨"a", "r"⟩, none⟩)
      .throws none "r"
    have hexp : sessionExpired (fun t => if t = "a" then some 1 else none) 100
        ⟨⟨"a", "r"⟩, none⟩ = false := rfl
    have hdue : (((exp (some (1 : ℚ))).sub (60 : ℚ)).sub 100).lt0 = true := by
      norm_num [exp, JsNum.sub, JsNum.lt0]
    simp [iter, renewPhase, hexp, hdue, jsTruthy]
  · apply C2_loop_releases_forceRefresh_holds.2 5 (some ⟨⟨"a", "r"⟩, none⟩)
      .invalid none "r"
    simp [forceRefresh]

/-- Claim C3 fails as stated: when `forceRefresh`'s refresh call returns a new
pair but the persisted `lockedAt` no longer matches the stamp it wrote, it
raises the lock-broken error *without* writing the state absent (unlike the
background loop's step 5). -/
theorem C3_counterexample :
    (forceRefresh 5 (some ⟨⟨"a", "r"⟩, none⟩) (.pair ⟨"a2", "r2"⟩)
        (some ⟨⟨"a", "r"⟩, some 99⟩)).1 = .errLockBroken ∧
    Ev.writeState none ∉ (forceRefresh 5 (some ⟨⟨"a", "r"⟩, none⟩)
        (.pair ⟨"a2", "r2"⟩) (some ⟨⟨"a", "r"⟩, some 99⟩)).2 := by
  have hne : optLockedAt (some (⟨⟨"a", "r"⟩, some 99⟩ : State)) ≠ some (5 : ℚ) := by
    norm_num [optLockedAt]
  constructor <;> simp [forceRefresh, hne]

/-- Claim C3, amended: on the lock-broken path `forceRefresh` raises the fatal
lock-integrity error without writing the state absent and without releasing
the store lock; the last events it performs are the stamped write, the refresh
call and the `get()` that revealed the mismatch. -/
theorem C3_lock_broken_raises_without_clear (now : ℚ) (s : State) (p : TokenPair)
    (snap : Option State) (h : optLockedAt snap ≠ some now) :
    forceRefresh now (some s) (.pair p) snap =
      (.errLockBroken, [Ev.lockAcq, Ev.writeState (some ⟨s.pair, some now⟩),
        Ev.refreshCall s.pair.refresh, Ev.getState]) ∧
    Ev.writeState none ∉ (forceRefresh now (some s) (.pair p) snap).2 ∧
    Ev.lockRel ∉ (forceRefresh now (some s) (.pair p) snap).2 := by
  have hfr : forceRefresh now (some s) (.pair p) snap =
      (.errLockBroken, [Ev.lockAcq, Ev.writeState (some ⟨s.pair, some now⟩),
        Ev.refreshCall s.pair.refresh, Ev.getState]) := by
    simp [forceRefresh, h]
  exact ⟨hfr, by simp [hfr], by simp [hfr]⟩

/-- Witness for the amended C3 with an absent post-refresh snapshot. -/
theorem C3_witness :
    forceRefresh 5 (some ⟨⟨"a", "r"⟩, none⟩) (.pair ⟨"a2", "r2"⟩) none =
      (.errLockBroken, [Ev.lockAcq, Ev.writeState (some ⟨⟨"a", "r"⟩, some 5⟩),
        Ev.refreshCall "r", Ev.getState]) :=
  (C3_lock_broken_raises_without_clear 5 ⟨⟨"a", "r"⟩, none⟩ ⟨"a2", "r2"⟩ none
    (by simp [optLockedAt])).1

end Rtr
